import Mathlib

/-!
Verification of the screen-edge docking and window-capture core of the
chatgpt-sidebar repository, shallowly embedded in Lean 4.

The embedding follows the Python sources:
* `src/chatgpt_sidebar/platform/appbar_win.py` (class `AppBarWin`),
* `src/chatgpt_sidebar/features/screenshot.py`,
* `src/chatgpt_sidebar/main_window.py` (`on_screenshot_to_chat` and the
  `self.appbar.*` call sites).

Calls into the OS (`SHAppBarMessage`, `GetMonitorInfoW`, `EnumWindows`,
`GetWindowRect`, ...) are modelled by explicit environment records whose
fields stand for the values those calls would produce; the Python functions
become pure Lean functions over those environments.  Machine integers are
modelled by `Int` (the quantities involved are screen coordinates, far from
the `c_long` range).
-/

namespace ChatGPTSidebar

/-- The Win32 `RECT` structure: `(left, top, right, bottom)`. -/
structure Rect where
  left : Int
  top : Int
  right : Int
  bottom : Int
deriving Repr, DecidableEq

/-- Edge constants from `class AppBarEdge` in `appbar_win.py`. -/
def AppBarEdge.LEFT : Nat := 0

/-- Edge constant `RIGHT = 2` from `class AppBarEdge`. -/
def AppBarEdge.RIGHT : Nat := 2

/-- Environment for the shell/monitor calls made by `AppBarWin`.
`hMonitor` is whether `MonitorFromWindow` returns a non-null handle,
`monitorInfo` the `rcMonitor` delivered by `GetMonitorInfoW` (`none` when
that call returns 0), `qtGeometry` the Qt primary-screen geometry used as
fallback (`none` when the Qt call raises), and `queryPos` the arbitrary
rectangle adjustment the shell performs when `SHAppBarMessage(QUERYPOS)`
is sent (it mutates `abd.rc` in place). -/
structure ShellEnv where
  hMonitor : Bool
  monitorInfo : Option Rect
  qtGeometry : Option Rect
  queryPos : Rect → Rect

/-- Embedding of `AppBarWin._get_monitor_rect`: monitor rect from the OS, else the Qt
primary-screen geometry, else the hard-coded `RECT(0, 0, 1920, 1080)`.
The Python body wraps the Qt fallback in `try/except`, so the function is
total; it is embedded as a total Lean function accordingly. -/
def getMonitorRect (env : ShellEnv) : Rect :=
  if env.hMonitor then
    match env.monitorInfo with
    | some mi => mi
    | none =>
      match env.qtGeometry with
      | some g => g
      | none => ⟨0, 0, 1920, 1080⟩
  else
    match env.qtGeometry with
    | some g => g
    | none => ⟨0, 0, 1920, 1080⟩

/-- Embedding of `AppBarWin._perform_dock`, as the rectangle finally passed to
`MoveWindow` (equivalently the window rectangle after the move, since
`MoveWindow(hwnd, x, y, w, h)` is called with `x = rc.left`, `y = rc.top`,
`w = rc.right - rc.left`, `h = rc.bottom - rc.top`).  The shell's QUERYPOS
counter-proposal is `env.queryPos`; the code then re-enforces the exact
width and the full monitor height before SETPOS and the move. -/
def performDock (env : ShellEnv) (edge : Nat) (width : Int) : Rect :=
  let rect := getMonitorRect env
  let screenLeft := rect.left
  let screenTop := rect.top
  let screenRight := rect.right
  let screenBottom := rect.bottom
  -- propose width, keep full height
  let rc :=
    if edge = AppBarEdge.LEFT then
      { rect with left := screenLeft, right := screenLeft + width }
    else
      { rect with left := screenRight - width, right := screenRight }
  let rc := { rc with top := screenTop, bottom := screenBottom }
  -- SHAppBarMessage(QUERYPOS) may adjust the rectangle in place
  let rc := env.queryPos rc
  -- enforce final width again after QUERYPOS
  let rc :=
    if edge = AppBarEdge.LEFT then
      { rc with left := screenLeft, right := screenLeft + width }
    else
      { rc with left := screenRight - width, right := screenRight }
  -- re-enforce full height
  let rc := { rc with top := screenTop, bottom := screenBottom }
  rc

/-- Embedding of Python's `str.lower()` as used on the edge argument
(`edge.lower()`), character by character. -/
def strLower (s : String) : String :=
  ⟨s.data.map Char.toLower⟩

/-- Embedding of `AppBarWin.dock`'s conversion of the string edge argument to an edge
constant: `"left"`/`"right"` case-insensitively, anything else defaults to
`LEFT` (with only a log warning). -/
def edgeFromString (edge : String) : Nat :=
  if strLower edge = "left" then AppBarEdge.LEFT
  else if strLower edge = "right" then AppBarEdge.RIGHT
  else AppBarEdge.LEFT

/-- State of an `AppBarWin` instance together with the OS-side rectangle of
its window.  `windowRect` is what `GetWindowRect` reports for the hosting
window; `_perform_dock` sets it via `MoveWindow`, so after any dock it is
the last applied rectangle (the spec's `lastAppliedRect`). -/
structure AppBarWin where
  registered : Bool
  edge : Nat
  width : Int
  windowRect : Rect
deriving Repr, DecidableEq

namespace AppBarWin

/-- Embedding of the `AppBarWin.__init__` defaults (`_registered = False`, `_edge = LEFT`,
`_width = 420`); the window starts at some OS-given rectangle `r0`. -/
def init (r0 : Rect) : AppBarWin :=
  { registered := false, edge := AppBarEdge.LEFT, width := 420, windowRect := r0 }

/-- Embedding of `AppBarWin.dock(edge, width)`: set edge (defaulting invalid strings to
LEFT) and width, register with the shell if not yet registered, then
`_perform_dock` (which moves the window to the computed rectangle). -/
def dock (s : AppBarWin) (env : ShellEnv) (edge : String) (width : Int) : AppBarWin :=
  let e := edgeFromString edge
  let s := { s with edge := e, width := width }
  let s := if s.registered then s else { s with registered := true }
  { s with windowRect := performDock env s.edge s.width }

/-- Embedding of `AppBarWin.undock`: unregister with the shell if registered; the window
itself is not moved. -/
def undock (s : AppBarWin) : AppBarWin :=
  if s.registered then { s with registered := false } else s

/-- Embedding of `AppBarWin.reposition`: re-run `_perform_dock` when registered. -/
def reposition (s : AppBarWin) (env : ShellEnv) : AppBarWin :=
  if s.registered then { s with windowRect := performDock env s.edge s.width } else s

/-- Embedding of `AppBarWin.get_opposite_work_area`: the monitor rectangle minus the
bar's own window rectangle (from `GetWindowRect`), on the side away from
the dock edge. -/
def get_opposite_work_area (s : AppBarWin) (env : ShellEnv) : Rect :=
  let monitor := getMonitorRect env
  let appbar := s.windowRect
  if s.edge = AppBarEdge.LEFT then
    ⟨appbar.right, monitor.top, monitor.right, monitor.bottom⟩
  else
    ⟨monitor.left, monitor.top, appbar.left, monitor.bottom⟩

end AppBarWin

/-! ## `features/screenshot.py` -/

/-- Embedding of `_intersect_rects(a, b)`: the intersection of two rectangles, `none`
when `x2 > x1 and y2 > y1` fails. -/
def intersect_rects (a b : Rect) : Option Rect :=
  let x1 := max a.left b.left
  let y1 := max a.top b.top
  let x2 := min a.right b.right
  let y2 := min a.bottom b.bottom
  if x2 > x1 ∧ y2 > y1 then some ⟨x1, y1, x2, y2⟩ else none

/-- Environment for the window-enumeration calls made by
`find_visible_window_in_rect`.  Window handles are `Nat`s, with `0` the
null handle.  `foreground` is `GetForegroundWindow()`, `windowFromPoint`
is `WindowFromPoint`, `ancestorRoot` is `GetAncestor(·, GA_ROOT)`,
`isVisible` is `IsWindowVisible`, `winRect` is `GetWindowRect`, and
`enumOrder` is the front-to-back order in which `EnumWindows` delivers
top-level windows. -/
structure WinEnv where
  foreground : Nat
  windowFromPoint : Int → Int → Nat
  ancestorRoot : Nat → Nat
  isVisible : Nat → Bool
  winRect : Nat → Rect
  enumOrder : List Nat

/-- Embedding of `_get_top_level_at_point(x, y)`: `WindowFromPoint` then
`GetAncestor(·, GA_ROOT)`, with `0` when no window is at the point. -/
def get_top_level_at_point (env : WinEnv) (x y : Int) : Nat :=
  let hwnd := env.windowFromPoint x y
  if hwnd = 0 then 0 else env.ancestorRoot hwnd

/-- The `EnumWindows` callback loop of `find_visible_window_in_rect`:
walk the enumeration front to back and stop at the first handle that is
not excluded, is visible, and whose rectangle intersects `work`;
`0` when the enumeration is exhausted. -/
def enumFind (env : WinEnv) (work : Rect) (excluded : List Nat) : List Nat → Nat
  | [] => 0
  | h :: t =>
    if h ∈ excluded then enumFind env work excluded t
    else if env.isVisible h = false then enumFind env work excluded t
    else if (intersect_rects (env.winRect h) work).isSome then h
    else enumFind env work excluded t

/-- Embedding of `find_visible_window_in_rect(work_rect, excluded_hwnds)`:
(1) the foreground window if non-null, not excluded, visible, and
intersecting; (2) else the top-level window at the work rectangle's
center point under the same conditions (the center uses Python's floor
division `//`); (3) else the `EnumWindows` front-to-back scan. -/
def find_visible_window_in_rect (env : WinEnv) (work : Rect) (excluded : List Nat) : Nat :=
  let fg := env.foreground
  if fg ≠ 0 ∧ fg ∉ excluded ∧ env.isVisible fg = true ∧
      (intersect_rects (env.winRect fg) work).isSome then fg
  else
    let cx := (work.left + work.right).fdiv 2
    let cy := (work.top + work.bottom).fdiv 2
    let atpt := get_top_level_at_point env cx cy
    if atpt ≠ 0 ∧ atpt ∉ excluded ∧ env.isVisible atpt = true ∧
        (intersect_rects (env.winRect atpt) work).isSome then atpt
    else enumFind env work excluded env.enumOrder

/-- The image produced by `capture_window_to_qimage`: a `QImage` of the
window's width and height over a `w * h * 4`-byte ARGB-32 buffer. -/
structure QImageModel where
  width : Int
  height : Int
  bufSize : Int
deriving Repr, DecidableEq

/-- Environment for `capture_window_to_qimage`: the rectangle
`GetWindowRect` reports for the target window. -/
structure CaptureEnv where
  winRect : Rect

/-- Embedding of `capture_window_to_qimage(hwnd)`: returns `none` without touching any
GDI resource when the window's reported width or height is `<= 0`;
otherwise acquires the DCs and bitmap, captures, and returns the image.
The second component records whether the GDI capture path was entered
(`GetWindowDC` onwards). -/
def capture_window_to_qimage (env : CaptureEnv) : Option QImageModel × Bool :=
  let r := env.winRect
  let w := r.right - r.left
  let h := r.bottom - r.top
  if w ≤ 0 ∨ h ≤ 0 then (none, false)
  else (some ⟨w, h, w * h * 4⟩, true)

/-! ## `main_window.py`: the screenshot handler and the `self.appbar.*`
call sites -/

/-- User-visible effects of `MainWindow.on_screenshot_to_chat`, in program
order: `ShowWindow(hwnd, SW_HIDE)` / `ShowWindow(hwnd, SW_SHOW)` on the
hosting window, a transient toast, and the JavaScript paste submission. -/
inductive UIEvent
  | hideHost
  | showHost
  | toast (msg : String)
  | pasteSubmitted
deriving Repr, DecidableEq

/-- Visibility of the hosting window after a sequence of events, starting
from visible: `hideHost` hides it, `showHost` shows it, everything else
leaves it unchanged. -/
def hostVisibleAfter (events : List UIEvent) : Bool :=
  events.foldl
    (fun v e =>
      match e with
      | UIEvent.hideHost => false
      | UIEvent.showHost => true
      | _ => v)
    true

/-- Environment for one run of `on_screenshot_to_chat`.  `appbarPresent`
is whether `self.appbar` is set; `findResult` is what
`find_visible_window_in_rect` returns for the opposite work area
(`0` = none); `captureOutcome` is what `capture_window_to_qimage` does
(`Except.error` models it raising, which its own `try/except` makes
impossible but the caller's `try/finally` must tolerate); `imageIsNull`
is `img.isNull()`; `pasteRaises` is whether the base64 encoding or the
JavaScript evaluation raises. -/
structure ScreenshotEnv where
  appbarPresent : Bool
  findResult : Nat
  captureOutcome : Except Unit (Option QImageModel)
  imageIsNull : Bool
  pasteRaises : Bool

/-- Embedding of `MainWindow.on_screenshot_to_chat` as the list of
user-visible events it produces.  The body mirrors the Python control
flow: early returns with a toast when no appbar or no target window;
then `hide_window`, a `try` block running the capture with `show_window`
in the `finally`, and the outer `try/except` turning any later exception
into a failure toast. -/
def on_screenshot_to_chat (env : ScreenshotEnv) : List UIEvent :=
  if env.appbarPresent = false then
    [UIEvent.toast "Screenshot only works in docked mode"]
  else if env.findResult = 0 then
    [UIEvent.toast "No window to capture in the work area."]
  else
    -- hide_window(...); try: img = capture...; finally: show_window(...)
    UIEvent.hideHost ::
      match env.captureOutcome with
      | Except.error _ =>
        -- the finally clause runs, then the outer except catches
        [UIEvent.showHost, UIEvent.toast "Screenshot failed. Please try again."]
      | Except.ok img =>
        UIEvent.showHost ::
          match img with
          | none => [UIEvent.toast "Couldn't capture that window."]
          | some _ =>
            if env.imageIsNull then
              [UIEvent.toast "Couldn't capture that window."]
            else if env.pasteRaises then
              [UIEvent.toast "Screenshot failed. Please try again."]
            else
              [UIEvent.pasteSubmitted]

/-- Method names defined by `class AppBarWin` in
`platform/appbar_win.py` (its full public and private surface, in source
order). -/
def appBarWinMethods : List String :=
  ["__init__", "is_docked", "dock", "undock", "reposition",
   "_get_monitor_rect", "_perform_dock", "get_opposite_work_area",
   "callback_msg"]

/-- Method names `main_window.py` invokes on its `self.appbar` object,
which is an `AppBarWin` instance (lines 180-716). -/
def mainWindowAppBarCalls : List String :=
  ["reposition", "get_last_rect", "dock", "get_opposite_work_area",
   "undock"]

/-! ## Helper lemmas -/

/-- A deterministic mock shell backend: the monitor is
`(0, 0, 1920, 1080)` and QUERYPOS counter-proposes an unrelated
rectangle, exercising the post-query re-enforcement. -/
def mockShellEnv : ShellEnv :=
  { hMonitor := true
    monitorInfo := some ⟨0, 0, 1920, 1080⟩
    qtGeometry := some ⟨0, 0, 1919, 1079⟩
    queryPos := fun _ => ⟨3, 1, 4, 1⟩ }

theorem dock_windowRect (s : AppBarWin) (env : ShellEnv) (edge : String)
    (width : Int) :
    (s.dock env edge width).windowRect =
      performDock env (edgeFromString edge) width := by
  unfold AppBarWin.dock
  cases h : s.registered <;> simp [h]

theorem dock_edge (s : AppBarWin) (env : ShellEnv) (edge : String)
    (width : Int) :
    (s.dock env edge width).edge = edgeFromString edge := by
  unfold AppBarWin.dock
  cases h : s.registered <;> simp [h]

theorem performDock_left (env : ShellEnv) (width : Int) :
    performDock env AppBarEdge.LEFT width =
      ⟨(getMonitorRect env).left, (getMonitorRect env).top,
       (getMonitorRect env).left + width, (getMonitorRect env).bottom⟩ := by
  unfold performDock
  simp

theorem performDock_right (env : ShellEnv) (width : Int) :
    performDock env AppBarEdge.RIGHT width =
      ⟨(getMonitorRect env).right - width, (getMonitorRect env).top,
       (getMonitorRect env).right, (getMonitorRect env).bottom⟩ := by
  unfold performDock
  simp [AppBarEdge.RIGHT, AppBarEdge.LEFT]

/-! ## Claims -/

/-- C1: for every `widthPixels` in `[1, monitor width]`, after
`Dock(Left, widthPixels)` the rectangle finally applied to the window by
`MoveWindow` satisfies `right - left = widthPixels`, `left` equal to the
monitor's left edge, and `bottom - top` equal to the full monitor height,
regardless of the adjusted rectangle the QUERYPOS call returned (the
post-query re-enforcement overrides it: `env.queryPos` is arbitrary). -/
theorem C1_dock_left_applied_rect (s : AppBarWin) (env : ShellEnv)
    (monitor : Rect) (hm : env.hMonitor = true)
    (hi : env.monitorInfo = some monitor) (width : Int)
    (hw1 : 1 ≤ width) (hw2 : width ≤ monitor.right - monitor.left) :
    (s.dock env "left" width).windowRect.right -
        (s.dock env "left" width).windowRect.left = width ∧
    (s.dock env "left" width).windowRect.left = monitor.left ∧
    (s.dock env "left" width).windowRect.bottom -
        (s.dock env "left" width).windowRect.top =
      monitor.bottom - monitor.top := by
  have hmon : getMonitorRect env = monitor := by
    simp [getMonitorRect, hm, hi]
  have hedge : edgeFromString "left" = AppBarEdge.LEFT := rfl
  rw [dock_windowRect, hedge, performDock_left, hmon]
  refine ⟨by ring, rfl, rfl⟩

/-- Closed instance of C1: mock shell, monitor `(0, 0, 1920, 1080)`,
`Dock(Left, 400)`. -/
theorem C1_dock_left_applied_rect_witness :
    mockShellEnv.hMonitor = true ∧
    mockShellEnv.monitorInfo = some ⟨0, 0, 1920, 1080⟩ ∧
    (1 : Int) ≤ 400 ∧ (400 : Int) ≤ 1920 - 0 ∧
    (((AppBarWin.init ⟨0, 0, 0, 0⟩).dock mockShellEnv "left" 400).windowRect.right -
        ((AppBarWin.init ⟨0, 0, 0, 0⟩).dock mockShellEnv "left" 400).windowRect.left = 400 ∧
      ((AppBarWin.init ⟨0, 0, 0, 0⟩).dock mockShellEnv "left" 400).windowRect.left = 0 ∧
      ((AppBarWin.init ⟨0, 0, 0, 0⟩).dock mockShellEnv "left" 400).windowRect.bottom -
        ((AppBarWin.init ⟨0, 0, 0, 0⟩).dock mockShellEnv "left" 400).windowRect.top = 1080 - 0) :=
  ⟨rfl, rfl, by decide, by decide,
    C1_dock_left_applied_rect (AppBarWin.init ⟨0, 0, 0, 0⟩) mockShellEnv
      ⟨0, 0, 1920, 1080⟩ rfl rfl 400 (by decide) (by decide)⟩

/-- C2: after any dock, `get_opposite_work_area` is the complement of the
bar's window rectangle on the monitor — for a Left dock
`(bar.right, monitor.top, monitor.right, monitor.bottom)`, for a Right
dock `(monitor.left, monitor.top, bar.left, monitor.bottom)`; and in the
end-to-end mock instance, `Dock(Left, 400)` on monitor
`(0, 0, 1920, 1080)` applies `(0, 0, 400, 1080)` and the opposite work
area is `(400, 0, 1920, 1080)`. -/
theorem C2_opposite_work_area (s : AppBarWin) (env : ShellEnv)
    (edge : String) (width : Int) :
    ((s.dock env edge width).get_opposite_work_area env =
      if edgeFromString edge = AppBarEdge.LEFT then
        ⟨(s.dock env edge width).windowRect.right, (getMonitorRect env).top,
         (getMonitorRect env).right, (getMonitorRect env).bottom⟩
      else
        ⟨(getMonitorRect env).left, (getMonitorRect env).top,
         (s.dock env edge width).windowRect.left, (getMonitorRect env).bottom⟩) ∧
    ((AppBarWin.init ⟨0, 0, 0, 0⟩).dock mockShellEnv "left" 400).windowRect =
      ⟨0, 0, 400, 1080⟩ ∧
    ((AppBarWin.init ⟨0, 0, 0, 0⟩).dock mockShellEnv "left" 400).get_opposite_work_area
        mockShellEnv = ⟨400, 0, 1920, 1080⟩ := by
  refine ⟨?_, by decide, by decide⟩
  unfold AppBarWin.get_opposite_work_area
  rw [dock_edge]

/-- C6: the rectangle a dock applies is a pure function of edge, width and
the shell environment — `Undock()` then `Dock()` with the same parameters
reproduces the same applied rectangle, and the applied rectangle does not
depend on the prior state (registration history) at all. -/
theorem C6_undock_dock_same_rect (s t : AppBarWin) (env : ShellEnv)
    (edge : String) (width : Int) :
    (((s.dock env edge width).undock).dock env edge width).windowRect =
      (s.dock env edge width).windowRect ∧
    (s.dock env edge width).windowRect = (t.dock env edge width).windowRect := by
  constructor <;> rw [dock_windowRect, dock_windowRect]

/-- C10: any edge string other than `"left"`/`"right"` (case-insensitive)
is silently defaulted to Left — `dock` behaves exactly as with `"left"`. -/
theorem C10_invalid_edge_defaults_left (s : AppBarWin) (env : ShellEnv)
    (edge : String) (width : Int)
    (h1 : strLower edge ≠ "left") (h2 : strLower edge ≠ "right") :
    s.dock env edge width = s.dock env "left" width := by
  have he : edgeFromString edge = AppBarEdge.LEFT := by
    simp [edgeFromString, h1, h2]
  have hl : edgeFromString "left" = AppBarEdge.LEFT := rfl
  unfold AppBarWin.dock
  rw [he, hl]

/-- Closed instance of C10: `dock("Top", 300)` equals `dock("left", 300)`. -/
theorem C10_invalid_edge_defaults_left_witness :
    strLower "Top" ≠ "left" ∧ strLower "Top" ≠ "right" ∧
    (AppBarWin.init ⟨0, 0, 0, 0⟩).dock mockShellEnv "Top" 300 =
      (AppBarWin.init ⟨0, 0, 0, 0⟩).dock mockShellEnv "left" 300 :=
  ⟨by decide, by decide,
    C10_invalid_edge_defaults_left (AppBarWin.init ⟨0, 0, 0, 0⟩) mockShellEnv
      "Top" 300 (by decide) (by decide)⟩

/-- Membership of an integer point in a closed rectangle. -/
def Rect.containsPoint (r : Rect) (x y : Int) : Prop :=
  r.left ≤ x ∧ x ≤ r.right ∧ r.top ≤ y ∧ y ≤ r.bottom

/-- Two rectangles are disjoint when no point lies in both. -/
def rectsDisjoint (a b : Rect) : Prop :=
  ∀ x y : Int, ¬ (a.containsPoint x y ∧ b.containsPoint x y)

/-- Two rectangles overlap when they share interior, i.e. the pairwise
maxima of the lower bounds lie strictly below the pairwise minima of the
upper bounds. -/
def rectsOverlap (a b : Rect) : Prop :=
  max a.left b.left < min a.right b.right ∧
  max a.top b.top < min a.bottom b.bottom

/-- C4 counterexample: for the identical degenerate pair
`(0, 0, 0, 0)`, `_intersect_rects` returns `none`, not the input, so the
identical-rectangles clause fails as universally stated. -/
theorem C4_identical_degenerate_counterexample :
    ¬ (intersect_rects ⟨0, 0, 0, 0⟩ ⟨0, 0, 0, 0⟩ = some ⟨0, 0, 0, 0⟩) := by
  decide

/-- C4 (amended): for every pair of rectangles, if they are disjoint the
intersection is `none`; if they are identical and non-degenerate
(positive width and height) it is the input unchanged; if they overlap it
is the rectangle of pairwise maxima of lower bounds and pairwise minima
of upper bounds. -/
theorem C4_intersect_rects_amended (a b : Rect) :
    (rectsDisjoint a b → intersect_rects a b = none) ∧
    (a.left < a.right → a.top < a.bottom → b = a →
      intersect_rects a b = some a) ∧
    (rectsOverlap a b →
      intersect_rects a b =
        some ⟨max a.left b.left, max a.top b.top,
              min a.right b.right, min a.bottom b.bottom⟩) := by
  refine ⟨?_, ?_, ?_⟩
  · intro hd
    unfold intersect_rects
    by_cases hc : min a.right b.right > max a.left b.left ∧
        min a.bottom b.bottom > max a.top b.top
    · exfalso
      refine hd (max a.left b.left) (max a.top b.top) ⟨⟨?_, ?_, ?_, ?_⟩, ?_, ?_, ?_, ?_⟩
      · exact le_max_left _ _
      · exact le_trans (le_of_lt hc.1) (min_le_left _ _)
      · exact le_max_left _ _
      · exact le_trans (le_of_lt hc.2) (min_le_left _ _)
      · exact le_max_right _ _
      · exact le_trans (le_of_lt hc.1) (min_le_right _ _)
      · exact le_max_right _ _
      · exact le_trans (le_of_lt hc.2) (min_le_right _ _)
    · simp only [if_neg hc]
  · intro h1 h2 hba
    subst hba
    unfold intersect_rects
    simp [lt_irrefl, h1, h2]
  · intro ho
    unfold intersect_rects
    simp only [if_pos (And.intro ho.1 ho.2)]

/-- Closed instances of C4 (amended): a disjoint pair, an identical
non-degenerate pair, and an overlapping pair. -/
theorem C4_intersect_rects_amended_witness :
    (rectsDisjoint ⟨0, 0, 10, 10⟩ ⟨20, 20, 30, 30⟩ ∧
      intersect_rects ⟨0, 0, 10, 10⟩ ⟨20, 20, 30, 30⟩ = none) ∧
    ((0 : Int) < 10 ∧ (0 : Int) < 10 ∧
      intersect_rects ⟨0, 0, 10, 10⟩ ⟨0, 0, 10, 10⟩ = some ⟨0, 0, 10, 10⟩) ∧
    (rectsOverlap ⟨0, 0, 10, 10⟩ ⟨5, 5, 15, 15⟩ ∧
      intersect_rects ⟨0, 0, 10, 10⟩ ⟨5, 5, 15, 15⟩ =
        some ⟨max 0 5, max 0 5, min 10 15, min 10 15⟩) := by
  have hd : rectsDisjoint ⟨0, 0, 10, 10⟩ ⟨20, 20, 30, 30⟩ := by
    intro x y h
    rcases h with ⟨⟨_, hx1, _, _⟩, ⟨hx2, _, _, _⟩⟩
    exact absurd (le_trans hx2 hx1) (by decide)
  have ho : rectsOverlap ⟨0, 0, 10, 10⟩ ⟨5, 5, 15, 15⟩ := by
    constructor <;> decide
  exact ⟨⟨hd, (C4_intersect_rects_amended _ _).1 hd⟩,
    ⟨by decide, by decide,
      (C4_intersect_rects_amended ⟨0, 0, 10, 10⟩ ⟨0, 0, 10, 10⟩).2.1
        (by decide) (by decide) rfl⟩,
    ⟨ho, (C4_intersect_rects_amended _ _).2.2 ho⟩⟩

/-- C5: whenever the window's reported bounds are degenerate (width or
height zero or negative), `capture_window_to_qimage` returns `none` and
the GDI capture path is never entered. -/
theorem C5_capture_degenerate_none (env : CaptureEnv)
    (h : env.winRect.right - env.winRect.left ≤ 0 ∨
         env.winRect.bottom - env.winRect.top ≤ 0) :
    capture_window_to_qimage env = (none, false) := by
  unfold capture_window_to_qimage
  simp only [if_pos h]

/-- Closed instances of C5: reported size `(0, 12)` and `(12, 0)`. -/
theorem C5_capture_degenerate_none_witness :
    (((⟨⟨5, 5, 5, 17⟩⟩ : CaptureEnv).winRect.right -
        (⟨⟨5, 5, 5, 17⟩⟩ : CaptureEnv).winRect.left ≤ 0 ∨
      (⟨⟨5, 5, 5, 17⟩⟩ : CaptureEnv).winRect.bottom -
        (⟨⟨5, 5, 5, 17⟩⟩ : CaptureEnv).winRect.top ≤ 0) ∧
     capture_window_to_qimage ⟨⟨5, 5, 5, 17⟩⟩ = (none, false)) ∧
    (((⟨⟨5, 5, 17, 5⟩⟩ : CaptureEnv).winRect.right -
        (⟨⟨5, 5, 17, 5⟩⟩ : CaptureEnv).winRect.left ≤ 0 ∨
      (⟨⟨5, 5, 17, 5⟩⟩ : CaptureEnv).winRect.bottom -
        (⟨⟨5, 5, 17, 5⟩⟩ : CaptureEnv).winRect.top ≤ 0) ∧
     capture_window_to_qimage ⟨⟨5, 5, 17, 5⟩⟩ = (none, false)) :=
  ⟨⟨by decide, C5_capture_degenerate_none ⟨⟨5, 5, 5, 17⟩⟩ (by decide)⟩,
   ⟨by decide, C5_capture_degenerate_none ⟨⟨5, 5, 17, 5⟩⟩ (by decide)⟩⟩

/-- C7 (code bug): `main_window.py` invokes `get_last_rect` on its
`AppBarWin` controller, but `class AppBarWin` defines no such method — the
call raises `AttributeError` at runtime instead of returning the last
applied rectangle. -/
theorem C7_get_last_rect_missing :
    "get_last_rect" ∈ mainWindowAppBarCalls ∧
    "get_last_rect" ∉ appBarWinMethods := by
  decide

/-- C8: monitor resolution never fails the dock operation —
`_get_monitor_rect` is total; when the OS lookup succeeds it returns the
monitor rectangle, when it fails it falls back to the Qt primary-screen
geometry, and when that also fails it returns the hard-coded
`(0, 0, 1920, 1080)`. -/
theorem C8_monitor_fallback (env : ShellEnv) :
    (∀ mi, env.hMonitor = true → env.monitorInfo = some mi →
      getMonitorRect env = mi) ∧
    (∀ g, (env.hMonitor = false ∨ env.monitorInfo = none) →
      env.qtGeometry = some g → getMonitorRect env = g) ∧
    ((env.hMonitor = false ∨ env.monitorInfo = none) →
      env.qtGeometry = none → getMonitorRect env = ⟨0, 0, 1920, 1080⟩) := by
  refine ⟨?_, ?_, ?_⟩
  · intro mi hm hi
    simp [getMonitorRect, hm, hi]
  · intro g hfail hg
    rcases hfail with hm | hi
    · simp [getMonitorRect, hm, hg]
    · cases hm : env.hMonitor <;> simp [getMonitorRect, hm, hi, hg]
  · intro hfail hg
    rcases hfail with hm | hi
    · simp [getMonitorRect, hm, hg]
    · cases hm : env.hMonitor <;> simp [getMonitorRect, hm, hi, hg]

/-- A shell environment whose OS monitor lookup fails but whose Qt
fallback succeeds. -/
def failShellEnv : ShellEnv :=
  { hMonitor := false
    monitorInfo := none
    qtGeometry := some ⟨0, 0, 2559, 1439⟩
    queryPos := fun r => r }

/-- A shell environment where both the OS monitor lookup and the Qt
fallback fail. -/
def deadShellEnv : ShellEnv :=
  { hMonitor := false
    monitorInfo := none
    qtGeometry := none
    queryPos := fun r => r }

/-- Closed instances of C8: OS lookup succeeds, only Qt succeeds, and
both fail. -/
theorem C8_monitor_fallback_witness :
    (mockShellEnv.hMonitor = true ∧
      mockShellEnv.monitorInfo = some ⟨0, 0, 1920, 1080⟩ ∧
      getMonitorRect mockShellEnv = ⟨0, 0, 1920, 1080⟩) ∧
    ((failShellEnv.hMonitor = false ∨ failShellEnv.monitorInfo = none) ∧
      failShellEnv.qtGeometry = some ⟨0, 0, 2559, 1439⟩ ∧
      getMonitorRect failShellEnv = ⟨0, 0, 2559, 1439⟩) ∧
    ((deadShellEnv.hMonitor = false ∨ deadShellEnv.monitorInfo = none) ∧
      deadShellEnv.qtGeometry = none ∧
      getMonitorRect deadShellEnv = ⟨0, 0, 1920, 1080⟩) :=
  ⟨⟨rfl, rfl, (C8_monitor_fallback mockShellEnv).1 _ rfl rfl⟩,
   ⟨Or.inl rfl, rfl, (C8_monitor_fallback failShellEnv).2.1 _ (Or.inl rfl) rfl⟩,
   ⟨Or.inl rfl, rfl, (C8_monitor_fallback deadShellEnv).2.2 (Or.inl rfl) rfl⟩⟩

/-- C9: the screenshot handler never terminates with the hosting window
hidden — the `try/finally` around the capture restores visibility on
every exit path (capture failure, null image, capture or paste raising),
so the host is visible after every run. -/
theorem C9_screenshot_restores_visibility (env : ScreenshotEnv) :
    hostVisibleAfter (on_screenshot_to_chat env) = true := by
  rcases env with ⟨ap, fr, co, isn, pr⟩
  cases ap
  · rfl
  · unfold on_screenshot_to_chat
    by_cases hfr : fr = 0
    · simp [hfr, hostVisibleAfter]
    · rcases co with e | img
      · simp [hfr, hostVisibleAfter]
      · rcases img with _ | i
        · simp [hfr, hostVisibleAfter]
        · cases isn <;> cases pr <;> simp [hfr, hostVisibleAfter]

/-- The qualification test of the `EnumWindows` callback in step 3 of
`find_visible_window_in_rect`: not excluded, visible, and intersecting
the work rectangle. -/
def enumQualifies (env : WinEnv) (work : Rect) (excluded : List Nat)
    (h : Nat) : Bool :=
  decide (h ∉ excluded) && env.isVisible h &&
    (intersect_rects (env.winRect h) work).isSome

/-- The window step 2 examines: the top-level window at the work
rectangle's center point (Python `//` is floor division). -/
def centerWindow (env : WinEnv) (work : Rect) : Nat :=
  get_top_level_at_point env ((work.left + work.right).fdiv 2)
    ((work.top + work.bottom).fdiv 2)

/-- The qualification test steps 1 and 2 apply to their candidate handle:
non-null, not excluded, visible, intersecting the work rectangle. -/
def candidateQualifies (env : WinEnv) (work : Rect) (excluded : List Nat)
    (h : Nat) : Prop :=
  h ≠ 0 ∧ h ∉ excluded ∧ env.isVisible h = true ∧
    (intersect_rects (env.winRect h) work).isSome

instance (env : WinEnv) (work : Rect) (excluded : List Nat) (h : Nat) :
    Decidable (candidateQualifies env work excluded h) :=
  inferInstanceAs (Decidable (_ ∧ _ ∧ _ ∧ _))

theorem enumFind_eq_find? (env : WinEnv) (work : Rect) (excluded : List Nat)
    (l : List Nat) :
    enumFind env work excluded l =
      (l.find? (enumQualifies env work excluded)).getD 0 := by
  induction l with
  | nil => rfl
  | cons h t ih =>
    by_cases hmem : h ∈ excluded
    · have hq : ¬ enumQualifies env work excluded h = true := by
        simp [enumQualifies, hmem]
      rw [enumFind, if_pos hmem, List.find?_cons_of_neg _ hq, ih]
    · by_cases hvis : env.isVisible h = true
      · by_cases hint : (intersect_rects (env.winRect h) work).isSome = true
        · have hq : enumQualifies env work excluded h = true := by
            simp [enumQualifies, hmem, hvis, hint]
          rw [enumFind, if_neg hmem, List.find?_cons_of_pos _ hq]
          simp [hvis, hint]
        · have hq : ¬ enumQualifies env work excluded h = true := by
            simp [enumQualifies, hint]
          rw [enumFind, if_neg hmem, List.find?_cons_of_neg _ hq, ← ih]
          simp [hvis, hint, enumFind]
      · have hq : ¬ enumQualifies env work excluded h = true := by
          simp [enumQualifies, hvis]
        rw [enumFind, if_neg hmem, List.find?_cons_of_neg _ hq, ← ih]
        simp [hvis, enumFind]

/-- A fake enumeration for the spec's test: windows `1` (excluded,
intersecting), `2` (visible, not intersecting), `3` (visible,
intersecting), delivered front-to-back as `[1, 2, 3]`; no foreground
window and no window at the center point. -/
def mockWinEnv : WinEnv :=
  { foreground := 0
    windowFromPoint := fun _ _ => 0
    ancestorRoot := fun h => h
    isVisible := fun _ => true
    winRect := fun h =>
      if h = 1 then ⟨0, 0, 10, 10⟩
      else if h = 2 then ⟨200, 200, 300, 300⟩
      else ⟨50, 50, 150, 150⟩
    enumOrder := [1, 2, 3] }

/-- C3: `find_visible_window_in_rect` resolves in the fixed order
foreground window, center-point window, front-to-back enumeration (first
qualifying window wins), returns `0` (none) when no window qualifies,
and on the fake enumeration `[W1 excluded/intersecting, W2 visible/not
intersecting, W3 visible/intersecting]` with no qualifying foreground or
center-point window it returns `W3`. -/
theorem C3_find_window_resolution :
    (∀ (env : WinEnv) (work : Rect) (excluded : List Nat),
      find_visible_window_in_rect env work excluded =
        if candidateQualifies env work excluded env.foreground then
          env.foreground
        else if candidateQualifies env work excluded (centerWindow env work) then
          centerWindow env work
        else
          (env.enumOrder.find? (enumQualifies env work excluded)).getD 0) ∧
    (∀ (env : WinEnv) (work : Rect) (excluded : List Nat),
      ¬ candidateQualifies env work excluded env.foreground →
      ¬ candidateQualifies env work excluded (centerWindow env work) →
      (∀ h ∈ env.enumOrder, ¬ enumQualifies env work excluded h = true) →
      find_visible_window_in_rect env work excluded = 0) ∧
    find_visible_window_in_rect mockWinEnv ⟨0, 0, 100, 100⟩ [1] = 3 := by
  have key : ∀ (env : WinEnv) (work : Rect) (excluded : List Nat),
      find_visible_window_in_rect env work excluded =
        if candidateQualifies env work excluded env.foreground then
          env.foreground
        else if candidateQualifies env work excluded (centerWindow env work) then
          centerWindow env work
        else
          (env.enumOrder.find? (enumQualifies env work excluded)).getD 0 := by
    intro env work excluded
    unfold find_visible_window_in_rect candidateQualifies centerWindow
    rw [enumFind_eq_find?]
  refine ⟨key, ?_, ?_⟩
  · intro env work excluded hfg hat henum
    rw [key, if_neg hfg, if_neg hat, List.find?_eq_none.mpr henum]
    rfl
  · decide

/-- Closed instance of the no-qualifying-window case of C3: an
environment with no foreground window, no window at the center point,
and an enumeration of invisible windows yields `0`. -/
def emptyWinEnv : WinEnv :=
  { foreground := 0
    windowFromPoint := fun _ _ => 0
    ancestorRoot := fun h => h
    isVisible := fun _ => false
    winRect := fun _ => ⟨0, 0, 0, 0⟩
    enumOrder := [4, 5] }

/-- Closed instances of C3: the fake-enumeration case resolved through
the theorem, and the no-qualifying-window case returning `0`. -/
theorem C3_find_window_resolution_witness :
    (¬ candidateQualifies emptyWinEnv ⟨0, 0, 100, 100⟩ [] emptyWinEnv.foreground) ∧
    (¬ candidateQualifies emptyWinEnv ⟨0, 0, 100, 100⟩ []
        (centerWindow emptyWinEnv ⟨0, 0, 100, 100⟩)) ∧
    (∀ h ∈ emptyWinEnv.enumOrder,
      ¬ enumQualifies emptyWinEnv ⟨0, 0, 100, 100⟩ [] h = true) ∧
    find_visible_window_in_rect emptyWinEnv ⟨0, 0, 100, 100⟩ [] = 0 :=
  ⟨by decide, by decide, by decide,
    C3_find_window_resolution.2.1 emptyWinEnv ⟨0, 0, 100, 100⟩ []
      (by decide) (by decide) (by decide)⟩

end ChatGPTSidebar
